import Mathlib

/-!
Verification of the BlackMoon Compiler browser client's Interactive
Execution Session (src/static/script.js, src/unnamed/part_000).

The client is a single object holding mutable fields (ws, wsConnecting,
shouldAutoRunOnce, isRunning, terminalInputBuffer).  We embed it as a
state record; every handler becomes a pure function from the state to a
new state together with the list of observable effects it performs
(channel sends, terminal writes, notifications, button updates, logs).
-/

namespace BlackMoon

/-- WebSocket readyState values (CONNECTING, OPEN, CLOSING, CLOSED). -/
inductive WsReady
| connecting
| opn
| closing
| closed
deriving DecidableEq, Repr

/-- The fields of the BlackMoonCompiler object relevant to the
Interactive Execution Session.  `ws = none` models `this.ws === null`;
`some r` models a socket object whose readyState is `r`. -/
structure IDEState where
  ws : Option WsReady
  wsConnecting : Bool
  shouldAutoRunOnce : Bool
  isRunning : Bool
  terminalInputBuffer : String
deriving DecidableEq, Repr

/-- Observable side effects of the handlers.  fitFocus stands for the
display-only fitTerminal/focusTerminal calls; consecutive such calls
are collapsed into a single marker. -/
inductive Effect
| send (msg : String)
| termWrite (text : String)
| clearTerm
| notify (msg kind : String)
| logMsg (msg : String)
| runButton (running : Bool)
| fitFocus
deriving DecidableEq, Repr

/-- `message.replace(/\r?\n/g, '\r\n')` from appendToTerminal:
a left-to-right scan replacing each "\r\n" or lone "\n" by "\r\n". -/
def normCRLFList : List Char → List Char
  | [] => []
  | [c] => if c = '\n' then ['\r', '\n'] else [c]
  | c1 :: c2 :: rest =>
    if c1 = '\n' then '\r' :: '\n' :: normCRLFList (c2 :: rest)
    else if c1 = '\r' ∧ c2 = '\n' then '\r' :: '\n' :: normCRLFList rest
    else c1 :: normCRLFList (c2 :: rest)

def normalizeCRLF (s : String) : String := ⟨normCRLFList s.data⟩

/-- `output.replace(/\n/g, '\r\n')` from part_000's handleWebSocketMessage:
every '\n' becomes "\r\n". -/
def normalizeLF (s : String) : String :=
  ⟨s.data.foldr (fun c acc => if c = '\n' then '\r' :: '\n' :: acc else c :: acc) []⟩

/-- Does `hay` start with `needle`? -/
def startsWithList (hay needle : List Char) : Bool :=
  match hay, needle with
  | _, [] => true
  | [], _ :: _ => false
  | c :: cs, d :: ds => decide (c = d) && startsWithList cs ds

/-- Does `needle` occur contiguously inside `hay`? -/
def hasInfix (hay needle : List Char) : Bool :=
  startsWithList hay needle ||
    match hay with
    | [] => false
    | _ :: cs => hasInfix cs needle

/-- `haystack.includes(needle)` (JS substring containment). -/
def strContains (haystack needle : String) : Bool :=
  hasInfix haystack.data needle.data

/-- JS String.prototype.trim: strip leading and trailing whitespace. -/
def jsTrim (s : String) : String :=
  ⟨((s.data.dropWhile Char.isWhitespace).reverse.dropWhile Char.isWhitespace).reverse⟩

/-- JS String.prototype.startsWith. -/
def strStartsWith (s p : String) : Bool :=
  startsWithList s.data p.data

/-- JS String.prototype.substring(n); all uses drop an ASCII prefix, so
code-unit and character indices agree. -/
def strDrop (s : String) (n : Nat) : String := ⟨s.data.drop n⟩

/-- JS String.prototype.slice(0, -1): drop the last character. -/
def strDropLast (s : String) : String := ⟨s.data.dropLast⟩

/-- appendToTerminal(text, className): normalizes newline sequences for
the terminal and wraps error-class messages in red ANSI color codes. -/
def appendToTerminal (text className : String) : Effect :=
  if className = "error" then
    Effect.termWrite ("\x1b[31m" ++ normalizeCRLF text ++ "\x1b[0m")
  else
    Effect.termWrite (normalizeCRLF text)

/-- connectWebSocket (script.js): returns immediately if a socket is
already OPEN or CONNECTING, or if wsConnecting is set; otherwise starts
a new connection attempt (the fresh socket is in CONNECTING state). -/
def connectWebSocket (st : IDEState) : IDEState × List Effect :=
  if st.ws = some WsReady.opn ∨ st.ws = some WsReady.connecting then (st, [])
  else if st.wsConnecting then (st, [])
  else ({ st with wsConnecting := true, ws := some WsReady.connecting }, [])

/-- runCode (script.js): rejects whitespace-only code with a
notification; if no OPEN socket exists, records a pending auto-run and
(re)connects; otherwise marks the session running, clears the terminal
(which also clears the input buffer), and sends the RUN command. -/
def runCode (code language : String) (st : IDEState) : IDEState × List Effect :=
  if jsTrim code = "" then
    (st, [Effect.notify "Please write some code first!" "error"])
  else if st.ws ≠ some WsReady.opn then
    connectWebSocket { st with shouldAutoRunOnce := true }
  else
    ({ st with isRunning := true, terminalInputBuffer := "" },
     [Effect.runButton true, Effect.clearTerm, Effect.fitFocus,
      Effect.send ("RUN " ++ language ++ " " ++ code)])

/-- ws.onopen handler: fires once the socket reaches OPEN; clears
wsConnecting; if an auto-run is pending, resets the flag and calls
runCode on the current editor contents. -/
def wsOnOpen (code language : String) (st : IDEState) : IDEState × List Effect :=
  if st.shouldAutoRunOnce then
    let r := runCode code language
      { st with ws := some WsReady.opn, wsConnecting := false, shouldAutoRunOnce := false }
    (r.1, Effect.logMsg "WebSocket connected" :: Effect.fitFocus :: r.2)
  else
    ({ st with ws := some WsReady.opn, wsConnecting := false },
     [Effect.logMsg "WebSocket connected", Effect.fitFocus])

/-- The "connection lost" notice emitted when the socket closes mid-run. -/
def connLostEffect : Effect :=
  appendToTerminal "🔴 Connection lost. Please run again.\n" "error"

/-- The unconditional close banner; `info` stands for the event text
interpolated into the message (code and optional reason). -/
def wsClosedEffect (info : String) : Effect :=
  appendToTerminal ("🔴 WS closed (" ++ info ++ ")\n") "error"

/-- ws.onclose handler: prints the close banner, clears socket state and
the input buffer, and if a run was in flight prints the connection-lost
notice and returns the session to idle. -/
def wsOnClose (info : String) (st : IDEState) : IDEState × List Effect :=
  if st.isRunning then
    ({ st with wsConnecting := false, ws := none, terminalInputBuffer := "",
               isRunning := false },
     [Effect.logMsg "WebSocket disconnected", wsClosedEffect info,
      connLostEffect, Effect.runButton false])
  else
    ({ st with wsConnecting := false, ws := none, terminalInputBuffer := "" },
     [Effect.logMsg "WebSocket disconnected", wsClosedEffect info])

/-- The free-text completion phrases scanned for by ws.onmessage. -/
def completionPhrases : List String :=
  ["Execution completed", "Process exited with code", "Execution timeout",
   "Execution stopped"]

/-- ws.onmessage handler (script.js): drops the handshake banner,
handles the structured completion sentinel, otherwise scans for the
known completion phrases (ending the run when one is found) and appends
the frame to the terminal. -/
def wsOnMessage (data : String) (st : IDEState) : IDEState × List Effect :=
  if jsTrim data = "BLACKMOON_WS_READY" then (st, [])
  else if data = "<<EXECUTION_COMPLETE>>" then
    ({ st with isRunning := false }, [Effect.runButton false])
  else if completionPhrases.any (fun p => strContains data p) then
    ({ st with isRunning := false },
     [Effect.runButton false, appendToTerminal data ""])
  else
    (st, [appendToTerminal data ""])

/-- handleWebSocketMessage (part_000): OUTPUT frames are rendered with
newlines normalized, EXECUTION_COMPLETE ends the run silently, ERROR
frames are rendered in red and end the run; anything else is dropped. -/
def handleWebSocketMessage (data : String) (st : IDEState) : IDEState × List Effect :=
  if strStartsWith data "OUTPUT " then
    (st, [Effect.termWrite (normalizeLF (strDrop data 7))])
  else if data = "EXECUTION_COMPLETE" then
    ({ st with isRunning := false }, [Effect.runButton false])
  else if strStartsWith data "ERROR " then
    ({ st with isRunning := false },
     [Effect.termWrite ("\x1b[31m" ++ strDrop data 6 ++ "\x1b[0m\r\n"),
      Effect.runButton false])
  else (st, [])

/-- stopExecution (script.js): if the socket is OPEN, tries to send STOP
(`sendOk = false` models ws.send throwing, in which case only the error
is logged); in every case the session is optimistically set to idle. -/
def stopExecution (sendOk : Bool) (st : IDEState) : IDEState × List Effect :=
  if st.ws = some WsReady.opn then
    if sendOk then
      ({ st with isRunning := false },
       [Effect.send "STOP", appendToTerminal "🛑 Stopping...\n" "",
        Effect.runButton false])
    else
      ({ st with isRunning := false },
       [Effect.logMsg "Failed to send STOP:", Effect.runButton false])
  else
    ({ st with isRunning := false }, [Effect.runButton false])

/-- The run-button click handler: Stop when a run is in flight,
otherwise Run. -/
def runButtonClick (code language : String) (sendOk : Bool)
    (st : IDEState) : IDEState × List Effect :=
  if st.isRunning then stopExecution sendOk st else runCode code language st

/-- One step of the terminal line discipline (the per-character switch
inside handleTerminalData): Enter flushes the buffer as an INPUT
command, Ctrl-C interrupts, Backspace/DEL erases destructively,
printable characters are buffered and echoed, other controls dropped. -/
def handleTermChar (st : IDEState) (c : Char) : IDEState × List Effect :=
  if c = '\r' ∨ c = '\n' then
    ({ st with terminalInputBuffer := "" },
     (if st.ws = some WsReady.opn then
        [Effect.send ("INPUT " ++ st.terminalInputBuffer)] else []) ++
     [Effect.termWrite "\r\n"])
  else if c = '\x03' then
    ({ st with terminalInputBuffer := "", isRunning := false },
     [Effect.termWrite "^C\r\n"] ++
     (if st.ws = some WsReady.opn then [Effect.send "STOP"] else []) ++
     [Effect.runButton false])
  else if c = '\x7f' ∨ c = '\x08' then
    if st.terminalInputBuffer.length > 0 then
      ({ st with terminalInputBuffer := strDropLast st.terminalInputBuffer },
       [Effect.termWrite "\x08 \x08"])
    else (st, [])
  else if ' ' ≤ c then
    ({ st with terminalInputBuffer := st.terminalInputBuffer.push c },
     [Effect.termWrite (String.singleton c)])
  else (st, [])

/-- One iteration of the for-loop in handleTerminalData: feed a
character to the per-character machine and accumulate its effects. -/
def handleTermFold (acc : IDEState × List Effect) (c : Char) : IDEState × List Effect :=
  ((handleTermChar acc.1 c).1, acc.2 ++ (handleTermChar acc.1 c).2)

/-- handleTerminalData: drops escape sequences wholesale, otherwise
feeds each character through the per-character state machine,
concatenating the effects. -/
def handleTerminalData (data : String) (st : IDEState) : IDEState × List Effect :=
  if strStartsWith data "\x1b" then (st, [])
  else data.data.foldl handleTermFold (st, [])

/-- External events driving the session state machine. -/
inductive Ev
| run (code language : String)
| wsOpen (code language : String)
| wsClose (info : String)
| msg (data : String)
| stop (sendOk : Bool)
| keys (data : String)

/-- Dispatch one external event. -/
def step (st : IDEState) : Ev → IDEState × List Effect
  | Ev.run c l => runCode c l st
  | Ev.wsOpen c l => wsOnOpen c l st
  | Ev.wsClose i => wsOnClose i st
  | Ev.msg d => wsOnMessage d st
  | Ev.stop ok => stopExecution ok st
  | Ev.keys d => handleTerminalData d st

/-- Run a sequence of events, accumulating the effect trace. -/
def runTrace (st : IDEState) : List Ev → IDEState × List Effect
  | [] => (st, [])
  | e :: es =>
    ((runTrace (step st e).1 es).1,
     (step st e).2 ++ (runTrace (step st e).1 es).2)

/-- The channel commands among a list of effects. -/
def sends (effs : List Effect) : List String :=
  effs.filterMap fun e =>
    match e with
    | Effect.send m => some m
    | _ => none

/-- The local terminal echo: concatenation of all terminal writes. -/
def echoOf (effs : List Effect) : String :=
  effs.foldl
    (fun acc e =>
      match e with
      | Effect.termWrite t => acc ++ t
      | _ => acc) ""

/-- The destructive backspace echo sequence: back-space, erase,
back-space. -/
def destructiveEcho : String := "\x08 \x08"

/-- Number of destructive-echo writes among a list of effects. -/
def destructiveCount (effs : List Effect) : Nat :=
  effs.countP fun e => decide (e = Effect.termWrite destructiveEcho)

/-- Number of connection-lost notices among a list of effects. -/
def connLostCount (effs : List Effect) : Nat :=
  effs.countP fun e => decide (e = connLostEffect)

/-! ### Helper lemmas -/

theorem sends_append (a b : List Effect) : sends (a ++ b) = sends a ++ sends b := by
  simp [sends, List.filterMap_append]

theorem handleTermChar_ws_eq (st : IDEState) (c : Char) :
    (handleTermChar st c).1.ws = st.ws := by
  unfold handleTermChar
  split_ifs <;> rfl

theorem handleTermChar_no_send (st : IDEState) (c : Char)
    (hws : st.ws ≠ some WsReady.opn) :
    sends (handleTermChar st c).2 = [] := by
  unfold handleTermChar
  split_ifs <;> simp_all [sends]

theorem handleTermChar_idle (st : IDEState) (c : Char)
    (hidle : st.isRunning = false) :
    (handleTermChar st c).1.isRunning = false := by
  unfold handleTermChar
  split_ifs <;> simp_all

/-- The per-character machine never reads isRunning: starting from the
same buffer and socket, it emits the same effects, and the resulting
state only differs in the isRunning field it explicitly wrote. -/
theorem handleTermChar_update (st : IDEState) (b : Bool) (c : Char) :
    handleTermChar { st with isRunning := b } c =
      ({ (handleTermChar st c).1 with
          isRunning := if c = '\x03' then false else b },
       (handleTermChar st c).2) := by
  unfold handleTermChar
  dsimp only
  split_ifs <;> simp_all

theorem foldTD_no_send (l : List Char) (st : IDEState) (acc : List Effect)
    (hws : st.ws ≠ some WsReady.opn) (hidle : st.isRunning = false) :
    sends (l.foldl handleTermFold (st, acc)).2 = sends acc ∧
    (l.foldl handleTermFold (st, acc)).1.isRunning = false := by
  induction l generalizing st acc with
  | nil => exact ⟨rfl, hidle⟩
  | cons c cs ih =>
    have hws' : (handleTermChar st c).1.ws ≠ some WsReady.opn := by
      rw [handleTermChar_ws_eq]; exact hws
    have hidle' := handleTermChar_idle st c hidle
    have h := ih (handleTermChar st c).1 (acc ++ (handleTermChar st c).2) hws' hidle'
    refine ⟨?_, h.2⟩
    rw [List.foldl_cons, handleTermFold, h.1, sends_append,
        handleTermChar_no_send st c hws, List.append_nil]

theorem foldTD_blind (l : List Char) (st : IDEState) (b : Bool) (acc : List Effect) :
    (l.foldl handleTermFold ({ st with isRunning := b }, acc)).2 =
      (l.foldl handleTermFold (st, acc)).2 := by
  induction l generalizing st b acc with
  | nil => rfl
  | cons c cs ih =>
    rw [List.foldl_cons, List.foldl_cons, handleTermFold, handleTermFold]
    dsimp only
    rw [handleTermChar_update]
    exact ih (handleTermChar st c).1 _ _

theorem normCRLFList_singleton (c : Char) (hc : ¬ c = '\n') :
    normCRLFList [c] = [c] := by
  simp only [normCRLFList]
  rw [if_neg hc]

theorem normCRLFList_cons_cons (c d : Char) (rest : List Char)
    (hc : ¬ c = '\n') (hcd : ¬ (c = '\r' ∧ d = '\n')) :
    normCRLFList (c :: d :: rest) = c :: normCRLFList (d :: rest) := by
  simp only [normCRLFList]
  rw [if_neg hc, if_neg hcd]

theorem normCRLFList_of_no_nl (l : List Char) (hn : '\n' ∉ l) :
    normCRLFList l = l := by
  induction l with
  | nil => rfl
  | cons c s ih =>
    cases s with
    | nil =>
      simp only [List.mem_cons, not_or] at hn
      exact normCRLFList_singleton c (fun e => hn.1 e.symm)
    | cons d rest =>
      simp only [List.mem_cons, not_or] at hn
      rw [normCRLFList_cons_cons c d rest (fun e => hn.1 e.symm)
            (fun hp => hn.2.1 hp.2.symm),
          ih (by simp only [List.mem_cons, not_or]; exact hn.2)]

theorem normCRLFList_append (s t : List Char)
    (hn : '\n' ∉ s) (hr : '\r' ∉ s) (ht : t ≠ []) :
    normCRLFList (s ++ t) = s ++ normCRLFList t := by
  induction s with
  | nil => rfl
  | cons c s' ih =>
    simp only [List.mem_cons, not_or] at hn hr
    have hcn : ¬ c = '\n' := fun e => hn.1 e.symm
    have hcr : ¬ c = '\r' := fun e => hr.1 e.symm
    show normCRLFList (c :: (s' ++ t)) = c :: (s' ++ normCRLFList t)
    cases hst : s' ++ t with
    | nil => exact absurd (List.append_eq_nil.mp hst).2 ht
    | cons d rest =>
      rw [normCRLFList_cons_cons c d rest hcn (fun hp => hcr hp.1)]
      rw [← hst]
      rw [ih hn.2 hr.2]

theorem startsWithList_of_append (hay n1 n2 : List Char)
    (h : startsWithList hay (n1 ++ n2) = true) :
    startsWithList hay n1 = true := by
  induction n1 generalizing hay with
  | nil =>
    cases hay <;> rfl
  | cons d ds ih =>
    cases hay with
    | nil => simp [startsWithList] at h
    | cons c cs =>
      rw [List.cons_append] at h
      unfold startsWithList at h ⊢
      simp only [Bool.and_eq_true, decide_eq_true_eq] at h ⊢
      exact ⟨h.1, ih cs h.2⟩

theorem hasInfix_of_append (hay n1 n2 : List Char)
    (h : hasInfix hay (n1 ++ n2) = true) :
    hasInfix hay n1 = true := by
  induction hay with
  | nil =>
    cases n1 with
    | nil => rfl
    | cons d ds => simp [hasInfix, startsWithList] at h
  | cons c cs ih =>
    unfold hasInfix at h ⊢
    simp only [Bool.or_eq_true] at h ⊢
    rcases h with h | h
    · exact Or.inl (startsWithList_of_append _ n1 n2 h)
    · exact Or.inr (ih h)

theorem strData_append (a b : String) : (a ++ b).data = a.data ++ b.data := rfl

/-- The close banner's rendered text never coincides with the rendered
connection-lost notice, whatever the close event's code and reason. -/
theorem connLost_text_ne (info : String) :
    "\x1b[31m" ++ normalizeCRLF ("🔴 WS closed (" ++ info ++ ")\n") ++ "\x1b[0m" ≠
      "\x1b[31m" ++ normalizeCRLF "🔴 Connection lost. Please run again.\n" ++ "\x1b[0m" := by
  intro h
  have hd := congrArg String.data h
  have hnd : ∀ s : String, (normalizeCRLF s).data = normCRLFList s.data := fun _ => rfl
  simp only [strData_append, hnd, List.append_assoc] at hd
  have ht : info.data ++ ")\n".data ≠ [] := by
    intro hz
    exact absurd (List.append_eq_nil.mp hz).2 (by decide)
  rw [normCRLFList_append ("🔴 WS closed (".data) (info.data ++ ")\n".data)
        (by decide) (by decide) ht] at hd
  simp only [List.append_assoc] at hd
  rw [← List.append_assoc (['\x1b', '[', '3', '1', 'm'] : List Char)
        ("🔴 WS closed (".data)] at hd
  have hg := congrArg (fun l => l.getD 7 'z') hd
  dsimp only at hg
  rw [List.getD_append ((['\x1b', '[', '3', '1', 'm'] : List Char) ++ "🔴 WS closed (".data)
        _ 'z' 7 (by decide)] at hg
  exact absurd hg (by decide)

theorem wsClosedEffect_ne_connLost (info : String) :
    wsClosedEffect info ≠ connLostEffect := by
  intro h
  have h2 : ("\x1b[31m" ++ normalizeCRLF ("🔴 WS closed (" ++ info ++ ")\n") ++ "\x1b[0m")
      = ("\x1b[31m" ++ normalizeCRLF "🔴 Connection lost. Please run again.\n" ++ "\x1b[0m") := by
    injection h
  exact connLost_text_ne info h2

/-- A run issued with no live socket queues the auto-run flag and opens
a connection; nothing is sent yet. -/
theorem runCode_queues (code language : String) (st : IDEState)
    (hcode : ¬ jsTrim code = "") (hws : st.ws = none) (hconn : st.wsConnecting = false) :
    runCode code language st =
      ({ st with shouldAutoRunOnce := true, wsConnecting := true,
                 ws := some WsReady.connecting }, []) := by
  unfold runCode connectWebSocket
  rw [if_neg hcode]
  rw [if_pos (by rw [hws]; intro hx; cases hx)]
  rw [if_neg (by rw [hws]; intro hx; rcases hx with hx | hx <;> cases hx)]
  rw [if_neg (by show ¬ ({ st with shouldAutoRunOnce := true } : IDEState).wsConnecting = true
                 rw [show ({ st with shouldAutoRunOnce := true } : IDEState).wsConnecting
                       = st.wsConnecting from rfl, hconn]
                 intro hx; cases hx)]

/-- A duplicate run issued while the socket is still connecting and an
auto-run is already queued is a complete no-op. -/
theorem runCode_dup (code language : String) (st : IDEState)
    (hcode : ¬ jsTrim code = "") (hws : st.ws = some WsReady.connecting)
    (hauto : st.shouldAutoRunOnce = true) :
    runCode code language st = (st, []) := by
  have hst : ({ st with shouldAutoRunOnce := true } : IDEState) = st := by
    rw [← hauto]
  unfold runCode connectWebSocket
  rw [if_neg hcode]
  rw [if_pos (by rw [hws]; intro hx; cases hx)]
  rw [hst]
  rw [if_pos (Or.inr hws)]

/-- When the socket opens with an auto-run queued, the open handler
resets the flag and dispatches the run command exactly once. -/
theorem wsOnOpen_dispatch (code language : String) (st : IDEState)
    (hcode : ¬ jsTrim code = "") (hauto : st.shouldAutoRunOnce = true) :
    wsOnOpen code language st =
      ({ st with ws := some WsReady.opn, wsConnecting := false,
                 shouldAutoRunOnce := false, isRunning := true,
                 terminalInputBuffer := "" },
       [Effect.logMsg "WebSocket connected", Effect.fitFocus, Effect.runButton true,
        Effect.clearTerm, Effect.fitFocus,
        Effect.send ("RUN " ++ language ++ " " ++ code)]) := by
  unfold wsOnOpen runCode
  rw [if_pos hauto, if_neg hcode]
  rw [if_neg (by intro hx; exact hx rfl)]

theorem runTrace_cons (st : IDEState) (e : Ev) (es : List Ev) :
    runTrace st (e :: es)
      = ((runTrace (step st e).1 es).1,
         (step st e).2 ++ (runTrace (step st e).1 es).2) := rfl

/-- Duplicate run events issued while the socket is connecting with the
auto-run flag set contribute nothing to the state or the trace. -/
theorem runTrace_replicate_dup (code language : String) (n : Nat) (st : IDEState)
    (hcode : ¬ jsTrim code = "") (hws : st.ws = some WsReady.connecting)
    (hauto : st.shouldAutoRunOnce = true) (es : List Ev) :
    runTrace st (List.replicate n (Ev.run code language) ++ es) = runTrace st es := by
  induction n with
  | zero => rfl
  | succ k ih =>
    rw [List.replicate_succ, List.cons_append]
    show ((runTrace (step st (Ev.run code language)).1 _).1,
          (step st (Ev.run code language)).2 ++ _) = _
    rw [show step st (Ev.run code language) = (st, []) from
          runCode_dup code language st hcode hws hauto]
    rw [List.nil_append]
    exact ih

/-! ### Claim theorems -/

/-- Claim C1 is refuted: with a session already Running, a channel Open
and non-empty code, a further runCode call does send a second RUN
command and does clear the terminal, instead of being a rejected no-op. -/
theorem C1_counterexample :
    sends (runCode "x" "python" ⟨some WsReady.opn, false, false, true, ""⟩).2
        = ["RUN python x"] ∧
    Effect.clearTerm ∈ (runCode "x" "python" ⟨some WsReady.opn, false, false, true, ""⟩).2 ∧
    ¬ sends (runCode "x" "python" ⟨some WsReady.opn, false, false, true, ""⟩).2 = [] := by
  decide

/-- Claim C1 (amended): runCode itself has no Running guard — called
while Running with non-empty code and an Open channel it clears the
terminal and sends another RUN command, leaving the state Running; only
the run-button click handler avoids a second RUN while Running, by
invoking stopExecution instead of runCode. -/
theorem C1_amended_rerun (code language : String) (st : IDEState)
    (hrun : st.isRunning = true) (hws : st.ws = some WsReady.opn)
    (hcode : ¬ jsTrim code = "") :
    runCode code language st =
      ({ st with isRunning := true, terminalInputBuffer := "" },
       [Effect.runButton true, Effect.clearTerm, Effect.fitFocus,
        Effect.send ("RUN " ++ language ++ " " ++ code)]) ∧
    sends (runButtonClick code language true st).2 = ["STOP"] := by
  constructor
  · unfold runCode
    rw [if_neg hcode]
    rw [if_neg (by rw [hws]; intro hx; exact hx rfl)]
  · unfold runButtonClick stopExecution
    rw [if_pos hrun, if_pos hws, if_pos rfl]
    rfl

theorem C1_amended_rerun_witness :
    runCode "x" "python" (⟨some WsReady.opn, false, false, true, ""⟩ : IDEState) =
      (⟨some WsReady.opn, false, false, true, ""⟩,
       [Effect.runButton true, Effect.clearTerm, Effect.fitFocus,
        Effect.send ("RUN " ++ "python" ++ " " ++ "x")]) ∧
    sends (runButtonClick "x" "python" true ⟨some WsReady.opn, false, false, true, ""⟩).2
        = ["STOP"] :=
  C1_amended_rerun "x" "python" ⟨some WsReady.opn, false, false, true, ""⟩ rfl rfl (by decide)

/-- Claim C2: a run issued while no channel is Open queues exactly one
pending run (the auto-run flag) and sends nothing; duplicate run calls
while the channel is Connecting are complete no-ops; across the first
call, any number of duplicate calls, and the open event, the channel
carries exactly one command — the single RUN — and the pending flag is
clear afterwards. -/
theorem C2_pending_run_once (code language : String) (n : Nat) (st0 : IDEState)
    (hws : st0.ws = none) (hconn : st0.wsConnecting = false)
    (hauto : st0.shouldAutoRunOnce = false) (hcode : ¬ jsTrim code = "") :
    (runCode code language st0).1.shouldAutoRunOnce = true ∧
    sends (runCode code language st0).2 = [] ∧
    runCode code language (runCode code language st0).1
      = ((runCode code language st0).1, []) ∧
    sends (runTrace st0 (Ev.run code language ::
        (List.replicate n (Ev.run code language) ++ [Ev.wsOpen code language]))).2
      = ["RUN " ++ language ++ " " ++ code] ∧
    (runTrace st0 (Ev.run code language ::
        (List.replicate n (Ev.run code language) ++ [Ev.wsOpen code language]))).1.shouldAutoRunOnce
      = false := by
  have h1 := runCode_queues code language st0 hcode hws hconn
  have htr : runTrace st0 (Ev.run code language ::
      (List.replicate n (Ev.run code language) ++ [Ev.wsOpen code language]))
      = (⟨some WsReady.opn, false, false, true, ""⟩,
         [Effect.logMsg "WebSocket connected", Effect.fitFocus, Effect.runButton true,
          Effect.clearTerm, Effect.fitFocus,
          Effect.send ("RUN " ++ language ++ " " ++ code)]) := by
    rw [runTrace_cons]
    simp only [step]
    rw [h1]
    rw [runTrace_replicate_dup code language n _ hcode rfl rfl]
    rw [runTrace_cons]
    simp only [step]
    rw [wsOnOpen_dispatch code language _ hcode rfl]
    rfl
  refine ⟨?_, ?_, ?_, ?_, ?_⟩
  · rw [h1]
  · rw [h1]
    rfl
  · rw [h1]
    exact runCode_dup code language _ hcode rfl rfl
  · rw [htr]
    rfl
  · rw [htr]

theorem C2_pending_run_once_witness :
    (runCode "x" "py" (⟨none, false, false, false, ""⟩ : IDEState)).1.shouldAutoRunOnce = true ∧
    sends (runCode "x" "py" (⟨none, false, false, false, ""⟩ : IDEState)).2 = [] ∧
    runCode "x" "py" (runCode "x" "py" (⟨none, false, false, false, ""⟩ : IDEState)).1
      = ((runCode "x" "py" (⟨none, false, false, false, ""⟩ : IDEState)).1, []) ∧
    sends (runTrace (⟨none, false, false, false, ""⟩ : IDEState) (Ev.run "x" "py" ::
        (List.replicate 2 (Ev.run "x" "py") ++ [Ev.wsOpen "x" "py"]))).2
      = ["RUN " ++ "py" ++ " " ++ "x"] ∧
    (runTrace (⟨none, false, false, false, ""⟩ : IDEState) (Ev.run "x" "py" ::
        (List.replicate 2 (Ev.run "x" "py") ++ [Ev.wsOpen "x" "py"]))).1.shouldAutoRunOnce
      = false :=
  C2_pending_run_once "x" "py" 2 ⟨none, false, false, false, ""⟩ rfl rfl rfl (by decide)

/-- Claim C3: dispatching the frame "OUTPUT hi\n" (part_000 dispatcher)
renders exactly "hi" with its newline normalized to "\r\n" and leaves
the state — in particular the run flag — untouched; dispatching the
completion sentinel ends the run with no text rendered, in the part_000
dispatcher ("EXECUTION_COMPLETE") and in the script.js one
("<<EXECUTION_COMPLETE>>") alike. -/
theorem C3_output_and_sentinel (st : IDEState) :
    handleWebSocketMessage "OUTPUT hi\n" st = (st, [Effect.termWrite "hi\r\n"]) ∧
    (handleWebSocketMessage "EXECUTION_COMPLETE" st).1.isRunning = false ∧
    echoOf (handleWebSocketMessage "EXECUTION_COMPLETE" st).2 = "" ∧
    (wsOnMessage "<<EXECUTION_COMPLETE>>" st).1.isRunning = false ∧
    echoOf (wsOnMessage "<<EXECUTION_COMPLETE>>" st).2 = "" :=
  ⟨rfl, rfl, rfl, rfl, rfl⟩

/-- Claim C4: a free-text frame that is neither the handshake banner nor
the structured sentinel but contains "Process exited with code 0" is
rendered verbatim as normal output and additionally ends the run. -/
theorem C4_free_text_completion (st : IDEState) (data : String)
    (h1 : ¬ jsTrim data = "BLACKMOON_WS_READY")
    (h2 : ¬ data = "<<EXECUTION_COMPLETE>>")
    (h3 : strContains data "Process exited with code 0" = true)
    (h4 : '\n' ∉ data.data) :
    wsOnMessage data st =
      ({ st with isRunning := false },
       [Effect.runButton false, Effect.termWrite data]) := by
  have hphrase : strContains data "Process exited with code" = true := by
    unfold strContains at h3 ⊢
    rw [show ("Process exited with code 0").data
          = ("Process exited with code").data ++ (" 0").data from rfl] at h3
    exact hasInfix_of_append _ _ _ h3
  have hany : (completionPhrases.any fun p => strContains data p) = true := by
    unfold completionPhrases
    rw [List.any_cons, List.any_cons, hphrase]
    simp
  have hnorm : normalizeCRLF data = data := by
    unfold normalizeCRLF
    rw [normCRLFList_of_no_nl data.data h4]
  unfold wsOnMessage
  rw [if_neg h1, if_neg h2, if_pos hany]
  unfold appendToTerminal
  rw [if_neg (by decide), hnorm]

theorem C4_free_text_completion_witness :
    wsOnMessage "Process exited with code 0"
        (⟨some WsReady.opn, false, false, true, ""⟩ : IDEState) =
      (⟨some WsReady.opn, false, false, false, ""⟩,
       [Effect.runButton false, Effect.termWrite "Process exited with code 0"]) :=
  C4_free_text_completion ⟨some WsReady.opn, false, false, true, ""⟩
    "Process exited with code 0" (by decide) (by decide) (by decide) (by decide)

/-- Claim C5 is refuted: with the channel Open but the session Idle,
keystrokes do have protocol effects — Enter sends an INPUT command and
Ctrl-C sends STOP. -/
theorem C5_counterexample :
    sends (handleTerminalData "\r" ⟨some WsReady.opn, false, false, false, ""⟩).2
        = ["INPUT "] ∧
    sends (handleTerminalData "\x03" ⟨some WsReady.opn, false, false, false, ""⟩).2
        = ["STOP"] := by
  decide

/-- Claim C5 (amended): the line discipline never consults the session
state — its effects are identical whatever isRunning is — and protocol
commands are gated only on the channel being Open: while the channel is
not Open, keystrokes are handled purely locally, send nothing, and leave
the session Idle. -/
theorem C5_amended_discipline (st : IDEState) (data : String) (b : Bool)
    (hws : st.ws ≠ some WsReady.opn) (hidle : st.isRunning = false) :
    sends (handleTerminalData data st).2 = [] ∧
    (handleTerminalData data st).1.isRunning = false ∧
    (handleTerminalData data { st with isRunning := b }).2
      = (handleTerminalData data st).2 := by
  unfold handleTerminalData
  split_ifs with hesc
  · exact ⟨rfl, hidle, rfl⟩
  · have h := foldTD_no_send data.data st [] hws hidle
    exact ⟨h.1, h.2, foldTD_blind data.data st b []⟩

theorem C5_amended_discipline_witness :
    sends (handleTerminalData "a\r" ⟨none, false, false, false, ""⟩).2 = [] ∧
    (handleTerminalData "a\r" ⟨none, false, false, false, ""⟩).1.isRunning = false ∧
    (handleTerminalData "a\r" (⟨none, false, false, true, ""⟩ : IDEState)).2
      = (handleTerminalData "a\r" ⟨none, false, false, false, ""⟩).2 :=
  C5_amended_discipline ⟨none, false, false, false, ""⟩ "a\r" true
    (by intro h; cases h) rfl

/-- Claim C6: from an empty buffer with the channel Open, the keystroke
sequence "ls -l\r" sends exactly one INPUT command carrying "ls -l",
leaves the buffer empty, and echoes exactly "ls -l\r\n". -/
theorem C6_line_flush (b1 b2 b3 : Bool) :
    sends (handleTerminalData "ls -l\r" ⟨some WsReady.opn, b1, b2, b3, ""⟩).2
        = ["INPUT ls -l"] ∧
    (handleTerminalData "ls -l\r" ⟨some WsReady.opn, b1, b2, b3, ""⟩).1.terminalInputBuffer
      = "" ∧
    echoOf (handleTerminalData "ls -l\r" ⟨some WsReady.opn, b1, b2, b3, ""⟩).2
      = "ls -l\r\n" :=
  ⟨rfl, rfl, rfl⟩

/-- Claim C7 is refuted on its count: "abc" followed by two backspaces
leaves the buffer at "a" but produces exactly two destructive-echo
sequences, not three. -/
theorem C7_counterexample :
    destructiveCount
        (handleTerminalData "abc\x7f\x7f" ⟨some WsReady.opn, false, false, true, ""⟩).2
      = 2 ∧
    ¬ destructiveCount
        (handleTerminalData "abc\x7f\x7f" ⟨some WsReady.opn, false, false, true, ""⟩).2
      = 3 := by
  decide

/-- Claim C7 (amended): "abc" followed by two backspaces leaves the
buffer equal to "a" and produces exactly two destructive-echo sequences,
one per deletion, each consisting of back-space, erase, back-space; a
backspace (DEL or BS) on an empty buffer is a complete no-op. -/
theorem C7_amended_two_destructive (w : Option WsReady) (b1 b2 b3 : Bool) :
    (handleTerminalData "abc\x7f\x7f" ⟨w, b1, b2, b3, ""⟩).1.terminalInputBuffer = "a" ∧
    destructiveCount (handleTerminalData "abc\x7f\x7f" ⟨w, b1, b2, b3, ""⟩).2 = 2 ∧
    handleTermChar ⟨w, b1, b2, b3, ""⟩ '\x7f' = (⟨w, b1, b2, b3, ""⟩, []) ∧
    handleTermChar ⟨w, b1, b2, b3, ""⟩ '\x08' = (⟨w, b1, b2, b3, ""⟩, []) :=
  ⟨rfl, rfl, rfl, rfl⟩

/-- Claim C8: a channel closing while Running returns the session to
Idle, renders exactly one connection-lost notice, sends nothing and
starts no new connection; closing while Idle renders no connection-lost
notice and leaves the session Idle. -/
theorem C8_channel_loss (st : IDEState) (info : String) :
    (st.isRunning = true →
      wsOnClose info st =
        ({ st with wsConnecting := false, ws := none, terminalInputBuffer := "",
                   isRunning := false },
         [Effect.logMsg "WebSocket disconnected", wsClosedEffect info,
          connLostEffect, Effect.runButton false]) ∧
      connLostCount (wsOnClose info st).2 = 1 ∧
      sends (wsOnClose info st).2 = []) ∧
    (st.isRunning = false →
      (wsOnClose info st).1.isRunning = false ∧
      connLostCount (wsOnClose info st).2 = 0 ∧
      sends (wsOnClose info st).2 = []) := by
  have hB : decide (wsClosedEffect info = connLostEffect) = false :=
    decide_eq_false (wsClosedEffect_ne_connLost info)
  constructor
  · intro hrun
    have he : wsOnClose info st =
        ({ st with wsConnecting := false, ws := none, terminalInputBuffer := "",
                   isRunning := false },
         [Effect.logMsg "WebSocket disconnected", wsClosedEffect info,
          connLostEffect, Effect.runButton false]) := by
      unfold wsOnClose
      rw [if_pos hrun]
    refine ⟨he, ?_, ?_⟩
    · rw [he]
      unfold connLostCount
      rw [List.countP_cons, List.countP_cons, List.countP_cons, List.countP_cons,
          List.countP_nil, hB]
      rfl
    · rw [he]
      unfold sends wsClosedEffect connLostEffect appendToTerminal
      rw [if_pos rfl, if_pos rfl]
      rfl
  · intro hidle
    have he : wsOnClose info st =
        ({ st with wsConnecting := false, ws := none, terminalInputBuffer := "" },
         [Effect.logMsg "WebSocket disconnected", wsClosedEffect info]) := by
      unfold wsOnClose
      rw [if_neg (by rw [hidle]; exact Bool.false_ne_true)]
    refine ⟨by rw [he, ← hidle], ?_, ?_⟩
    · rw [he]
      unfold connLostCount
      rw [List.countP_cons, List.countP_cons, List.countP_nil, hB]
      rfl
    · rw [he]
      unfold sends wsClosedEffect appendToTerminal
      rw [if_pos rfl]
      rfl

theorem C8_channel_loss_witness :
    connLostCount (wsOnClose "code=1006"
        (⟨some WsReady.opn, false, false, true, ""⟩ : IDEState)).2 = 1 ∧
    connLostCount (wsOnClose "code=1006"
        (⟨some WsReady.opn, false, false, false, ""⟩ : IDEState)).2 = 0 :=
  ⟨((C8_channel_loss ⟨some WsReady.opn, false, false, true, ""⟩ "code=1006").1 rfl).2.1,
   ((C8_channel_loss ⟨some WsReady.opn, false, false, false, ""⟩ "code=1006").2 rfl).2.1⟩

/-- Claim C9: stopExecution immediately returns the session to Idle
without touching the channel; with an Open channel it sends exactly one
STOP command when the send succeeds, and when the send throws it only
logs the failure — no retry, no further send — while still going Idle. -/
theorem C9_stop_optimistic (st : IDEState) (sendOk : Bool)
    (hrun : st.isRunning = true) :
    (stopExecution sendOk st).1.isRunning = false ∧
    (stopExecution sendOk st).1.ws = st.ws ∧
    (st.ws = some WsReady.opn → sendOk = true →
      sends (stopExecution sendOk st).2 = ["STOP"]) ∧
    (st.ws = some WsReady.opn → sendOk = false →
      sends (stopExecution sendOk st).2 = [] ∧
      Effect.logMsg "Failed to send STOP:" ∈ (stopExecution sendOk st).2) := by
  unfold stopExecution
  split_ifs with hws hok
  · refine ⟨rfl, rfl, fun _ _ => rfl, fun _ h2 => ?_⟩
    rw [h2] at hok
    exact absurd hok Bool.false_ne_true
  · refine ⟨rfl, rfl, fun _ h2 => absurd h2 hok, fun _ _ => ?_⟩
    exact ⟨rfl, List.mem_cons_self _ _⟩
  · exact ⟨rfl, rfl, fun h1 _ => absurd h1 hws, fun h1 _ => absurd h1 hws⟩

theorem C9_stop_optimistic_witness :
    (stopExecution true (⟨some WsReady.opn, false, false, true, ""⟩ : IDEState)).1.isRunning
      = false ∧
    (stopExecution true (⟨some WsReady.opn, false, false, true, ""⟩ : IDEState)).1.ws
      = some WsReady.opn ∧
    sends (stopExecution true (⟨some WsReady.opn, false, false, true, ""⟩ : IDEState)).2
      = ["STOP"] :=
  have h := C9_stop_optimistic ⟨some WsReady.opn, false, false, true, ""⟩ true rfl
  ⟨h.1, h.2.1, h.2.2.1 rfl rfl⟩

/-- Claim C10: every carriage-return or line-feed keystroke flushes the
buffer; with the channel Open it sends the INPUT command — the bare
command "INPUT " when the buffer is empty — and with the channel not
Open it sends nothing, but in both cases the buffer is cleared and a
newline is echoed. -/
theorem C10_newline_always_flushes (st : IDEState) (c : Char)
    (hc : c = '\r' ∨ c = '\n') :
    (st.ws = some WsReady.opn →
      handleTermChar st c =
        ({ st with terminalInputBuffer := "" },
         [Effect.send ("INPUT " ++ st.terminalInputBuffer), Effect.termWrite "\r\n"])) ∧
    (st.terminalInputBuffer = "" → st.ws = some WsReady.opn →
      handleTermChar st c =
        ({ st with terminalInputBuffer := "" },
         [Effect.send "INPUT ", Effect.termWrite "\r\n"])) ∧
    (st.ws ≠ some WsReady.opn →
      handleTermChar st c =
        ({ st with terminalInputBuffer := "" }, [Effect.termWrite "\r\n"])) := by
  unfold handleTermChar
  rw [if_pos hc]
  refine ⟨fun hws => ?_, fun hbuf hws => ?_, fun hws => ?_⟩
  · rw [if_pos hws]
    rfl
  · rw [if_pos hws, hbuf]
    rfl
  · rw [if_neg hws]
    rfl

theorem C10_newline_always_flushes_witness :
    handleTermChar (⟨some WsReady.opn, false, false, false, ""⟩ : IDEState) '\r' =
      (⟨some WsReady.opn, false, false, false, ""⟩,
       [Effect.send "INPUT ", Effect.termWrite "\r\n"]) ∧
    handleTermChar (⟨none, false, false, false, "ab"⟩ : IDEState) '\n' =
      (⟨none, false, false, false, ""⟩, [Effect.termWrite "\r\n"]) :=
  ⟨(C10_newline_always_flushes ⟨some WsReady.opn, false, false, false, ""⟩ '\r'
      (Or.inl rfl)).2.1 rfl rfl,
   (C10_newline_always_flushes ⟨none, false, false, false, "ab"⟩ '\n'
      (Or.inr rfl)).2.2 (fun h => by cases h)⟩

end BlackMoon
